import Mathlib

/-!
# static/js/stripe-init.js

A shallow embedding of `initStripeFromServer` and of the `DOMContentLoaded`
listener that calls it.

The asynchronous function is modelled as a function from the page environment
(what `fetch`, the body parser `res.json()` and the global `Stripe` do) and the
initial values of the two globals `window.STRIPE_PK` and `window.STRIPE` to an
outcome: the final globals, the ordered trace of the effects of the run, and the
settlement of the promise the function returns.  The two `await`s are
sequential, so a run is a straight-line computation; the awaited promises of
`fetch` and `res.json()` settle, and a rejected one is a throw at the `await`.

A `return` of the async function resolves its promise with the returned value.
Line 19 returns `window.STRIPE` without `await`, so when that value is a
thenable the promise adopts it after the `try` has been left: it settles as the
thenable settles, which the `catch` never sees.
-/

namespace StripeInit

/-! ## Values -/

/-- A value as `JSON.parse` produces it (what `res.json()` resolves with).  An
object is the list of its own properties.  A number is kept as an integer: the
script observes a number only through its truthiness. -/
inductive Json where
  | null
  | bool (b : Bool)
  | num (n : Int)
  | str (s : String)
  | arr (items : List Json)
  | obj (fields : List (String × Json))

/-- A JavaScript value as the script meets it: `undefined`, a JSON value
(`null` included), a host object known by identity that is not a thenable (an
SDK handle, a rejection reason), the `TypeError` thrown by reading the named
property of `null`, or a thenable known by identity (a promise or another object
with a callable `then`) together with how it settles: it fulfils with a value,
rejects with a reason, or never settles.  Calling `then` has no other effect. -/
inductive JSVal where
  | undefined
  | json (j : Json)
  | host (id : Nat)
  | typeError (reading : String)
  | fulfilled (id : Nat) (value : JSVal)
  | rejected (id : Nat) (reason : JSVal)
  | pending (id : Nat)

/-- The value `null`. -/
def jsNull : JSVal := .json .null

/-- ToBoolean on a JSON value: `null`, `false`, `0` and `""` are falsy. -/
def Json.truthy : Json → Bool
  | .null => false
  | .bool b => b
  | .num n => n != 0
  | .str s => s != ""
  | .arr _ => true
  | .obj _ => true

/-- ToBoolean on a value: `undefined` is falsy, objects are truthy. -/
def JSVal.truthy : JSVal → Bool
  | .undefined => false
  | .json j => j.truthy
  | .host _ => true
  | .typeError _ => true
  | .fulfilled _ _ => true
  | .rejected _ _ => true
  | .pending _ => true

/-- Whether a value is a thenable.  A parsed JSON value never is: it holds no
function. -/
def JSVal.isThenable : JSVal → Bool
  | .fulfilled _ _ => true
  | .rejected _ _ => true
  | .pending _ => true
  | _ => false

/-- The property read `json.name` on a parsed body, for the two names the script
reads (`success`, `publishable_key`): on `null` it throws a `TypeError`; on an
object it yields the property, or `undefined` when the object has none of that
name; on a boolean, number, string or array it yields `undefined`. -/
def getProp (j : Json) (name : String) : Except JSVal JSVal :=
  match j with
  | .null => .error (.typeError name)
  | .obj fields =>
    match fields.lookup name with
    | some v => .ok (.json v)
    | none => .ok .undefined
  | _ => .ok .undefined

/-! ## Environment, globals, effects -/

/-- What the script reads of the `Response` that `fetch` resolves with: the `ok`
flag (true exactly for a 2xx status) and what `res.json()` settles with (the
parsed body, or the rejection reason when the body is not valid JSON). -/
structure Response where
  ok : Bool
  json : Except JSVal Json

/-- The page environment of one run: what `fetch(url)` settles with (a response,
or a rejection reason), and the global `window.Stripe`: `none` when it is absent
(falsy), otherwise what the call `Stripe(key)` does (returns a handle or throws;
a truthy value that is not callable throws on every call). -/
structure Env where
  fetch : String → Except JSVal Response
  Stripe : Option (JSVal → Except JSVal JSVal)

/-- The two globals the script writes; `undefined` while unset. -/
structure Globals where
  STRIPE_PK : JSVal
  STRIPE : JSVal

/-- Console level. -/
inductive Level where
  | warn
  | error

/-- One console line: level, the message string, and the further arguments. -/
structure LogLine where
  level : Level
  message : String
  extra : List JSVal

/-- An observable effect of a run. -/
inductive Event where
  | request (method : String) (url : String)
  | parseBody
  | writePK (v : JSVal)
  | callStripe (key : JSVal)
  | writeSTRIPE (v : JSVal)
  | log (line : LogLine)

/-- Globals and the effects so far, in order of occurrence. -/
structure RunState where
  globals : Globals
  trace : List Event

/-- Record an effect. -/
def RunState.emit (s : RunState) (e : Event) : RunState :=
  { s with trace := s.trace ++ [e] }

/-- The assignment `window.STRIPE_PK = v`. -/
def RunState.setPK (s : RunState) (v : JSVal) : RunState :=
  { globals := { s.globals with STRIPE_PK := v }, trace := s.trace ++ [.writePK v] }

/-- The assignment `window.STRIPE = v`. -/
def RunState.setSTRIPE (s : RunState) (v : JSVal) : RunState :=
  { globals := { s.globals with STRIPE := v }, trace := s.trace ++ [.writeSTRIPE v] }

/-- The fixed path of line 6. -/
def endpoint : String := "/api/stripe-pk"

/-- The condition of line 12, `json.success && json.publishable_key`, as a
boolean: `json.publishable_key` is read only when `json.success` is truthy. -/
def acceptCondition (json : Json) : Except JSVal Bool :=
  match getProp json "success" with
  | .error e => .error e
  | .ok success =>
    if success.truthy then
      match getProp json "publishable_key" with
      | .error e => .error e
      | .ok key => .ok key.truthy
    else .ok false

/-- Lines 6 to 23, the body of the `try`: the state it leaves and either the
value it returns or the value it throws. -/
def tryBlock (env : Env) (s0 : RunState) : RunState × Except JSVal JSVal :=
  -- const res = await fetch('/api/stripe-pk');
  let s1 := s0.emit (.request "GET" endpoint)
  match env.fetch endpoint with
  | .error e => (s1, .error e)
  | .ok res =>
    -- if (!res.ok) { console.warn(...); return null; }
    if !res.ok then
      (s1.emit (.log ⟨.warn, "Stripe publishable key not found on server", []⟩), .ok jsNull)
    else
      -- const json = await res.json();
      let s2 := s1.emit .parseBody
      match res.json with
      | .error e => (s2, .error e)
      | .ok json =>
        -- if (json.success && json.publishable_key)
        match acceptCondition json with
        | .error e => (s2, .error e)
        | .ok false =>
          -- console.warn('No publishable key in response:', json); return null;
          (s2.emit (.log ⟨.warn, "No publishable key in response:", [.json json]⟩), .ok jsNull)
        | .ok true =>
          -- window.STRIPE_PK = json.publishable_key;
          match getProp json "publishable_key" with
          | .error e => (s2, .error e)
          | .ok key =>
            let s3 := s2.setPK key
            -- if (window.Stripe)
            match env.Stripe with
            | some ctor =>
              -- window.STRIPE = Stripe(window.STRIPE_PK);
              let s4 := s3.emit (.callStripe s3.globals.STRIPE_PK)
              match ctor s3.globals.STRIPE_PK with
              | .error e => (s4, .error e)
              | .ok h =>
                let s5 := s4.setSTRIPE h
                -- return window.STRIPE;
                (s5, .ok s5.globals.STRIPE)
            | none =>
              -- console.warn('Stripe.js not loaded');
              let s4 := s3.emit (.log ⟨.warn, "Stripe.js not loaded", []⟩)
              -- return window.STRIPE;
              (s4, .ok s4.globals.STRIPE)

/-- How the promise of an async function ends: fulfilled with `v` (the result),
rejected with `e`, or never settled. -/
inductive Completion where
  | resolved (v : JSVal)
  | rejected (e : JSVal)
  | pending

/-- Resolution of the promise of an async function with a returned value: a
value that is not a thenable fulfils it; a thenable is adopted, so the promise
is resolved in turn with the value the thenable fulfils with, is rejected with
the reason the thenable rejects with, and never settles if the thenable never
does. -/
def resolveWith : JSVal → Completion
  | .fulfilled _ v => resolveWith v
  | .rejected _ e => .rejected e
  | .pending _ => .pending
  | .undefined => .resolved .undefined
  | .json j => .resolved (.json j)
  | .host id => .resolved (.host id)
  | .typeError r => .resolved (.typeError r)

/-- The outcome of a run: final globals, the effects in order, the settlement. -/
structure Outcome where
  globals : Globals
  trace : List Event
  completion : Completion

/-- The function of lines 4 to 28: the `try` body, and the `catch` that logs the
thrown value at error level and returns `null`.  The promise is resolved with
the returned value; nothing awaits it inside the `try`. -/
def initStripeFromServer (env : Env) (g : Globals) : Outcome :=
  match tryBlock env { globals := g, trace := [] } with
  | (s, .ok v) => { globals := s.globals, trace := s.trace, completion := resolveWith v }
  | (s, .error e) =>
    -- console.error('initStripeFromServer error', e); return null;
    let s1 := s.emit (.log ⟨.error, "initStripeFromServer error", [e]⟩)
    { globals := s1.globals, trace := s1.trace, completion := resolveWith jsNull }

/-- The console lines of a trace, in order. -/
def logsOf (t : List Event) : List LogLine :=
  t.filterMap fun ev => match ev with
    | .log line => some line
    | _ => none

/-- The console lines of a run. -/
def Outcome.logs (o : Outcome) : List LogLine := logsOf o.trace

/-- Whether an effect is a network request. -/
def Event.isRequest : Event → Bool
  | .request _ _ => true
  | _ => false

/-- The number of network requests in a trace. -/
def requestCount (t : List Event) : Nat := (t.filter Event.isRequest).length

/-- The listener of lines 30 to 32, `async () => { await initStripeFromServer(); }`:
it awaits one call and returns nothing; a rejection of the awaited promise is
thrown at the `await` and rejects the promise of the listener. -/
def domContentLoadedListener (env : Env) (g : Globals) : Outcome :=
  let out := initStripeFromServer env g
  match out.completion with
  | .resolved _ => { out with completion := .resolved .undefined }
  | .rejected e => { out with completion := .rejected e }
  | .pending => { out with completion := .pending }

/-- Deliveries of `DOMContentLoaded` to the one listener the script registers,
one for each environment of the list, in order: the final globals and all the
effects. -/
def deliver : List Env → Globals → Globals × List Event
  | [], g => (g, [])
  | env :: rest, g =>
    let out := domContentLoadedListener env g
    let r := deliver rest out.globals
    (r.1, out.trace ++ r.2)

/-- An empty result: `null` or `undefined`. -/
def JSVal.isEmpty : JSVal → Bool
  | .undefined => true
  | .json .null => true
  | _ => false

/-! ## The cases of the specification -/

/-- The response is OK and parses to `body`. -/
def OkBody (env : Env) (body : Json) : Prop :=
  ∃ res, env.fetch endpoint = .ok res ∧ res.ok = true ∧ res.json = .ok body

/-- The body carries a truthy `success` and the truthy `publishable_key` `key`. -/
def Accepted (body : Json) (key : JSVal) : Prop :=
  ∃ sv, getProp body "success" = .ok sv ∧ sv.truthy = true ∧
    getProp body "publishable_key" = .ok key ∧ key.truthy = true

/-- The body can be read, and `success` is falsy or `publishable_key` is missing
or falsy. -/
def Refused (body : Json) : Prop :=
  ∃ sv, getProp body "success" = .ok sv ∧
    (sv.truthy = false ∨
      ∃ key, getProp body "publishable_key" = .ok key ∧ key.truthy = false)

/-- Transport failure: `fetch` rejects, or the status is not OK. -/
def TransportFailure (env : Env) : Prop :=
  (∃ e, env.fetch endpoint = .error e) ∨
  (∃ res, env.fetch endpoint = .ok res ∧ res.ok = false)

/-- Deserialization failure: the body of an OK response is not valid JSON. -/
def DeserializationFailure (env : Env) : Prop :=
  ∃ res e, env.fetch endpoint = .ok res ∧ res.ok = true ∧ res.json = .error e

/-- Application failure: the parsed body has a falsy `success` or no key. -/
def ApplicationFailure (env : Env) : Prop :=
  ∃ body, OkBody env body ∧ Refused body

/-- Environment failure: the body is accepted with `key` and `window.Stripe` is
absent. -/
def EnvironmentFailure (env : Env) (key : JSVal) : Prop :=
  (∃ body, OkBody env body ∧ Accepted body key) ∧ env.Stripe = none

/-- A step of the run throws `e`: `fetch` rejects with `e`; or the body parser
rejects with `e`; or the property read on the parsed body throws `e`; or the
body is accepted and the call of `Stripe` on its key throws `e`. -/
def Throws (env : Env) (e : JSVal) : Prop :=
  env.fetch endpoint = .error e ∨
  (∃ res, env.fetch endpoint = .ok res ∧ res.ok = true ∧ res.json = .error e) ∨
  (∃ body, OkBody env body ∧ getProp body "success" = .error e) ∨
  (∃ body key ctor, OkBody env body ∧ Accepted body key ∧
    env.Stripe = some ctor ∧ ctor key = .error e)

/-- An expected failure: the status is not OK; or the body is refused; or the
body is accepted and `window.Stripe` is absent. -/
def ExpectedFailure (env : Env) : Prop :=
  (∃ res, env.fetch endpoint = .ok res ∧ res.ok = false) ∨
  ApplicationFailure env ∨
  (∃ key, EnvironmentFailure env key)

/-- The happy path: the key was stored and the handle was constructed and
stored. -/
def Happy (o : Outcome) : Prop :=
  ∃ k h, Event.writePK k ∈ o.trace ∧ Event.writeSTRIPE h ∈ o.trace

/-- The eight paths through the function; every environment takes one. -/
inductive Path (env : Env) : Prop where
  | fetchRejects (e : JSVal) (hf : env.fetch endpoint = .error e)
  | notOk (res : Response) (hf : env.fetch endpoint = .ok res) (hok : res.ok = false)
  | parseThrows (res : Response) (e : JSVal) (hf : env.fetch endpoint = .ok res)
      (hok : res.ok = true) (hj : res.json = .error e)
  | readThrows (body : Json) (e : JSVal) (hb : OkBody env body)
      (hs : getProp body "success" = .error e)
  | refused (body : Json) (hb : OkBody env body) (hr : Refused body)
  | sdkAbsent (body : Json) (key : JSVal) (hb : OkBody env body) (ha : Accepted body key)
      (hS : env.Stripe = none)
  | ctorThrows (body : Json) (key e : JSVal) (ctor : JSVal → Except JSVal JSVal)
      (hb : OkBody env body) (ha : Accepted body key) (hS : env.Stripe = some ctor)
      (hc : ctor key = .error e)
  | happy (body : Json) (key h : JSVal) (ctor : JSVal → Except JSVal JSVal)
      (hb : OkBody env body) (ha : Accepted body key) (hS : env.Stripe = some ctor)
      (hc : ctor key = .ok h)

/-! ## Concrete environments -/

/-- Both globals unset. -/
def unsetGlobals : Globals := { STRIPE_PK := .undefined, STRIPE := .undefined }

/-- The body `{success: true, publishable_key: k}`. -/
def keyBody (k : String) : Json :=
  .obj [("success", .bool true), ("publishable_key", .str k)]

/-- An OK response with the given parsed body. -/
def okResponse (body : Json) : Response := { ok := true, json := .ok body }

/-- A page whose `fetch` resolves with `res` and whose `window.Stripe` is `sdk`. -/
def pageWith (res : Response) (sdk : Option (JSVal → Except JSVal JSVal)) : Env :=
  { fetch := fun _ => .ok res, Stripe := sdk }

/-- An SDK constructor that returns the handle `host 1` for every key. -/
def sdkOk : JSVal → Except JSVal JSVal := fun _ => .ok (.host 1)

/-- An SDK constructor that throws `host 9` for every key. -/
def sdkThrows : JSVal → Except JSVal JSVal := fun _ => .error (.host 9)

/-- An SDK constructor that returns, for every key, a promise rejected with
`host 6`. -/
def sdkRejectedPromise : JSVal → Except JSVal JSVal := fun _ => .ok (.rejected 2 (.host 6))

/-- A page where another script placed in `window.STRIPE` a promise fulfilled
with `host 4`. -/
def promiseGlobals : Globals := { STRIPE_PK := .undefined, STRIPE := .fulfilled 2 (.host 4) }

/-- A page already holding a key and a handle placed by another script. -/
def presetGlobals : Globals := { STRIPE_PK := .json (.str "old"), STRIPE := .host 7 }

/-! ## Reading the body -/

theorem getProp_error_iff (body : Json) (name : String) (e : JSVal) :
    getProp body name = .error e ↔ body = .null ∧ e = .typeError name := by
  cases body <;> simp [getProp]
  · exact eq_comm
  · split <;> simp

theorem getProp_ok_of_ok {body : Json} {n1 : String} {v : JSVal}
    (h : getProp body n1 = .ok v) (n2 : String) : ∃ w, getProp body n2 = .ok w := by
  cases body <;> simp [getProp] at h ⊢
  split <;> simp

theorem acceptCondition_error_iff (body : Json) (e : JSVal) :
    acceptCondition body = .error e ↔ getProp body "success" = .error e := by
  unfold acceptCondition
  cases hs : getProp body "success" with
  | error e1 => simp
  | ok sv =>
    obtain ⟨w, hw⟩ := getProp_ok_of_ok hs "publishable_key"
    simp [hw]
    split <;> simp

theorem acceptCondition_true_iff (body : Json) :
    acceptCondition body = .ok true ↔ ∃ key, Accepted body key := by
  unfold acceptCondition Accepted
  cases hs : getProp body "success" with
  | error e1 => simp
  | ok sv =>
    obtain ⟨w, hw⟩ := getProp_ok_of_ok hs "publishable_key"
    by_cases ht : sv.truthy = true <;> simp [hw, ht]

theorem acceptCondition_false_iff (body : Json) :
    acceptCondition body = .ok false ↔ Refused body := by
  unfold acceptCondition Refused
  cases hs : getProp body "success" with
  | error e1 => simp
  | ok sv =>
    obtain ⟨w, hw⟩ := getProp_ok_of_ok hs "publishable_key"
    by_cases ht : sv.truthy = true <;> simp [hw, ht]

theorem accepted_unique {body : Json} {k1 k2 : JSVal}
    (h1 : Accepted body k1) (h2 : Accepted body k2) : k1 = k2 := by
  obtain ⟨_, _, _, h1, _⟩ := h1
  obtain ⟨_, _, _, h2, _⟩ := h2
  rw [h1] at h2
  exact Except.ok.inj h2

theorem okBody_unique {env : Env} {b1 b2 : Json}
    (h1 : OkBody env b1) (h2 : OkBody env b2) : b1 = b2 := by
  obtain ⟨r1, hf1, _, hj1⟩ := h1
  obtain ⟨r2, hf2, _, hj2⟩ := h2
  rw [hf1] at hf2
  cases Except.ok.inj hf2
  rw [hj1] at hj2
  exact Except.ok.inj hj2

/-! ## The outcome of each path -/

theorem resolveWith_jsNull : resolveWith jsNull = .resolved jsNull := rfl

theorem resolveWith_of_not_thenable {v : JSVal} (h : v.isThenable = false) :
    resolveWith v = .resolved v := by
  cases v <;> simp [JSVal.isThenable] at h <;> rfl

theorem run_fetch_rejects {env : Env} (g : Globals) {e : JSVal}
    (hf : env.fetch endpoint = .error e) :
    initStripeFromServer env g =
      { globals := g
        trace := [.request "GET" endpoint, .log ⟨.error, "initStripeFromServer error", [e]⟩]
        completion := .resolved jsNull } := by
  simp [initStripeFromServer, tryBlock, resolveWith_jsNull, hf, RunState.emit]

theorem run_not_ok {env : Env} (g : Globals) {res : Response}
    (hf : env.fetch endpoint = .ok res) (hok : res.ok = false) :
    initStripeFromServer env g =
      { globals := g
        trace := [.request "GET" endpoint,
          .log ⟨.warn, "Stripe publishable key not found on server", []⟩]
        completion := .resolved jsNull } := by
  simp [initStripeFromServer, tryBlock, resolveWith_jsNull, hf, hok, RunState.emit]

theorem run_parse_throws {env : Env} (g : Globals) {res : Response} {e : JSVal}
    (hf : env.fetch endpoint = .ok res) (hok : res.ok = true) (hj : res.json = .error e) :
    initStripeFromServer env g =
      { globals := g
        trace := [.request "GET" endpoint, .parseBody,
          .log ⟨.error, "initStripeFromServer error", [e]⟩]
        completion := .resolved jsNull } := by
  simp [initStripeFromServer, tryBlock, resolveWith_jsNull, hf, hok, hj, RunState.emit]

theorem run_read_throws {env : Env} (g : Globals) {body : Json} {e : JSVal}
    (hb : OkBody env body) (hs : getProp body "success" = .error e) :
    initStripeFromServer env g =
      { globals := g
        trace := [.request "GET" endpoint, .parseBody,
          .log ⟨.error, "initStripeFromServer error", [e]⟩]
        completion := .resolved jsNull } := by
  obtain ⟨res, hf, hok, hj⟩ := hb
  have hc := (acceptCondition_error_iff body e).2 hs
  simp [initStripeFromServer, tryBlock, resolveWith_jsNull, hf, hok, hj, hc, RunState.emit]

theorem run_refused {env : Env} (g : Globals) {body : Json}
    (hb : OkBody env body) (hr : Refused body) :
    initStripeFromServer env g =
      { globals := g
        trace := [.request "GET" endpoint, .parseBody,
          .log ⟨.warn, "No publishable key in response:", [.json body]⟩]
        completion := .resolved jsNull } := by
  obtain ⟨res, hf, hok, hj⟩ := hb
  have hc := (acceptCondition_false_iff body).2 hr
  simp [initStripeFromServer, tryBlock, resolveWith_jsNull, hf, hok, hj, hc, RunState.emit]

theorem run_sdk_absent {env : Env} (g : Globals) {body : Json} {key : JSVal}
    (hb : OkBody env body) (ha : Accepted body key) (hS : env.Stripe = none) :
    initStripeFromServer env g =
      { globals := { STRIPE_PK := key, STRIPE := g.STRIPE }
        trace := [.request "GET" endpoint, .parseBody, .writePK key,
          .log ⟨.warn, "Stripe.js not loaded", []⟩]
        completion := resolveWith g.STRIPE } := by
  obtain ⟨res, hf, hok, hj⟩ := hb
  have hc := (acceptCondition_true_iff body).2 ⟨key, ha⟩
  obtain ⟨_, _, _, hk, _⟩ := ha
  simp [initStripeFromServer, tryBlock, resolveWith_jsNull, hf, hok, hj, hc, hk, hS, RunState.emit,
    RunState.setPK]

theorem run_ctor_throws {env : Env} (g : Globals) {body : Json} {key e : JSVal}
    {ctor : JSVal → Except JSVal JSVal}
    (hb : OkBody env body) (ha : Accepted body key) (hS : env.Stripe = some ctor)
    (hc : ctor key = .error e) :
    initStripeFromServer env g =
      { globals := { STRIPE_PK := key, STRIPE := g.STRIPE }
        trace := [.request "GET" endpoint, .parseBody, .writePK key, .callStripe key,
          .log ⟨.error, "initStripeFromServer error", [e]⟩]
        completion := .resolved jsNull } := by
  obtain ⟨res, hf, hok, hj⟩ := hb
  have hacc := (acceptCondition_true_iff body).2 ⟨key, ha⟩
  obtain ⟨_, _, _, hk, _⟩ := ha
  simp [initStripeFromServer, tryBlock, resolveWith_jsNull, hf, hok, hj, hacc, hk, hS, hc, RunState.emit,
    RunState.setPK]

theorem run_happy {env : Env} (g : Globals) {body : Json} {key h : JSVal}
    {ctor : JSVal → Except JSVal JSVal}
    (hb : OkBody env body) (ha : Accepted body key) (hS : env.Stripe = some ctor)
    (hc : ctor key = .ok h) :
    initStripeFromServer env g =
      { globals := { STRIPE_PK := key, STRIPE := h }
        trace := [.request "GET" endpoint, .parseBody, .writePK key, .callStripe key,
          .writeSTRIPE h]
        completion := resolveWith h } := by
  obtain ⟨res, hf, hok, hj⟩ := hb
  have hacc := (acceptCondition_true_iff body).2 ⟨key, ha⟩
  obtain ⟨_, _, _, hk, _⟩ := ha
  simp [initStripeFromServer, tryBlock, resolveWith_jsNull, hf, hok, hj, hacc, hk, hS, hc, RunState.emit,
    RunState.setPK, RunState.setSTRIPE]

theorem path_total (env : Env) : Path env := by
  cases hf : env.fetch endpoint with
  | error e => exact .fetchRejects e hf
  | ok res =>
    cases hok : res.ok with
    | false => exact .notOk res hf hok
    | true =>
      cases hj : res.json with
      | error e => exact .parseThrows res e hf hok hj
      | ok body =>
        have hb : OkBody env body := ⟨res, hf, hok, hj⟩
        cases hc : acceptCondition body with
        | error e => exact .readThrows body e hb ((acceptCondition_error_iff body e).1 hc)
        | ok b =>
          cases b with
          | false => exact .refused body hb ((acceptCondition_false_iff body).1 hc)
          | true =>
            obtain ⟨key, ha⟩ := (acceptCondition_true_iff body).1 hc
            cases hS : env.Stripe with
            | none => exact .sdkAbsent body key hb ha hS
            | some ctor =>
              cases hk : ctor key with
              | error e => exact .ctorThrows body key e ctor hb ha hS hk
              | ok h => exact .happy body key h ctor hb ha hS hk

theorem requestCount_append (t u : List Event) :
    requestCount (t ++ u) = requestCount t + requestCount u := by
  simp [requestCount]

theorem refused_not_accepted {body : Json} {key : JSVal}
    (hr : Refused body) (ha : Accepted body key) : False := by
  obtain ⟨sv, hs, hsv, hk, hkt⟩ := ha
  obtain ⟨sv2, hs2, h | ⟨k2, hk2, hkt2⟩⟩ := hr
  · rw [hs] at hs2
    cases Except.ok.inj hs2
    simp [hsv] at h
  · rw [hk] at hk2
    cases Except.ok.inj hk2
    simp [hkt] at hkt2

theorem accepted_no_read_error {body : Json} {key e : JSVal}
    (ha : Accepted body key) (hs : getProp body "success" = .error e) : False := by
  obtain ⟨sv, hs2, _⟩ := ha
  rw [hs] at hs2
  cases hs2

theorem refused_no_read_error {body : Json} {e : JSVal}
    (hr : Refused body) (hs : getProp body "success" = .error e) : False := by
  obtain ⟨sv, hs2, _⟩ := hr
  rw [hs] at hs2
  cases hs2

theorem okBody_fetch {env : Env} {body : Json} {res : Response}
    (hb : OkBody env body) (hf : env.fetch endpoint = .ok res) :
    res.ok = true ∧ res.json = .ok body := by
  obtain ⟨r, hf2, hok, hj⟩ := hb
  rw [hf] at hf2
  cases Except.ok.inj hf2
  exact ⟨hok, hj⟩

theorem okBody_no_fetch_error {env : Env} {body : Json} {e : JSVal}
    (hb : OkBody env body) (hf : env.fetch endpoint = .error e) : False := by
  obtain ⟨r, hf2, _⟩ := hb
  rw [hf] at hf2
  cases hf2

theorem expected_not_throws {env : Env} (hx : ExpectedFailure env) (e : JSVal) :
    ¬ Throws env e := by
  intro ht
  rcases hx with ⟨res, hf, hok⟩ | ⟨body, hb, hr⟩ | ⟨key, ⟨body, hb, ha⟩, hS⟩
  · rcases ht with hf2 | ⟨r2, hf2, hok2, _⟩ | ⟨b2, hb2, _⟩ | ⟨b2, k2, c2, hb2, _⟩
    · rw [hf] at hf2; cases hf2
    · rw [hf] at hf2; cases Except.ok.inj hf2; simp [hok] at hok2
    · have := (okBody_fetch hb2 hf).1; simp [hok] at this
    · have := (okBody_fetch hb2 hf).1; simp [hok] at this
  · rcases ht with hf2 | ⟨r2, hf2, hok2, hj2⟩ | ⟨b2, hb2, hs2⟩ | ⟨b2, k2, c2, hb2, ha2, _⟩
    · exact okBody_no_fetch_error hb hf2
    · have := (okBody_fetch hb hf2).2; rw [hj2] at this; cases this
    · cases okBody_unique hb hb2; exact refused_no_read_error hr hs2
    · cases okBody_unique hb hb2; exact refused_not_accepted hr ha2
  · rcases ht with hf2 | ⟨r2, hf2, hok2, hj2⟩ | ⟨b2, hb2, hs2⟩ | ⟨b2, k2, c2, hb2, _, hS2, _⟩
    · exact okBody_no_fetch_error hb hf2
    · have := (okBody_fetch hb hf2).2; rw [hj2] at this; cases this
    · cases okBody_unique hb hb2; exact accepted_no_read_error ha hs2
    · rw [hS] at hS2; cases hS2

/-! ## The claims -/

/-- C1, as stated, fails when the handle that `Stripe` returns is a thenable: on
the response `{success: true, publishable_key: "pk_test_123"}`, with `Stripe`
present and returning, without throwing, a promise rejected with `host 6`, the
promise of the run is rejected with `host 6`; the result is not the handle. -/
theorem C1_counterexample :
    "pk_test_123" ≠ "" ∧
    (pageWith (okResponse (keyBody "pk_test_123")) (some sdkRejectedPromise)).fetch endpoint
      = .ok (okResponse (keyBody "pk_test_123")) ∧
    (okResponse (keyBody "pk_test_123")).ok = true ∧
    (okResponse (keyBody "pk_test_123")).json = .ok (keyBody "pk_test_123") ∧
    getProp (keyBody "pk_test_123") "success" = .ok (.json (.bool true)) ∧
    getProp (keyBody "pk_test_123") "publishable_key" = .ok (.json (.str "pk_test_123")) ∧
    (pageWith (okResponse (keyBody "pk_test_123")) (some sdkRejectedPromise)).Stripe
      = some sdkRejectedPromise ∧
    sdkRejectedPromise (.json (.str "pk_test_123")) = .ok (.rejected 2 (.host 6)) ∧
    (initStripeFromServer (pageWith (okResponse (keyBody "pk_test_123"))
        (some sdkRejectedPromise)) unsetGlobals).completion = .rejected (.host 6) ∧
    (initStripeFromServer (pageWith (okResponse (keyBody "pk_test_123"))
        (some sdkRejectedPromise)) unsetGlobals).completion
      ≠ .resolved (.rejected 2 (.host 6)) := by
  refine ⟨by decide, rfl, rfl, rfl, rfl, rfl, rfl, rfl, rfl, ?_⟩
  have hc : (initStripeFromServer (pageWith (okResponse (keyBody "pk_test_123"))
      (some sdkRejectedPromise)) unsetGlobals).completion = .rejected (.host 6) := rfl
  rw [hc]
  simp

/-- C1, amended: happy path. For a non-empty key string `k`, when `fetch`
resolves with an OK response whose parsed body has `success` true and
`publishable_key` `k`, and `Stripe` is present and returns the handle `h` for
`k`, then after the run `window.STRIPE_PK` is `k`, `window.STRIPE` is `h`, which
is `Stripe(k)`, nothing is logged, and the promise is resolved with `h`: the
result is `h` when `h` is not a thenable, and a thenable `h` is adopted. -/
theorem C1_happy_path (env : Env) (g : Globals) (res : Response) (body : Json) (k : String)
    (h : JSVal) (ctor : JSVal → Except JSVal JSVal)
    (hk : k ≠ "")
    (hf : env.fetch endpoint = .ok res) (hok : res.ok = true) (hj : res.json = .ok body)
    (hs : getProp body "success" = .ok (.json (.bool true)))
    (hp : getProp body "publishable_key" = .ok (.json (.str k)))
    (hS : env.Stripe = some ctor) (hc : ctor (.json (.str k)) = .ok h) :
    (initStripeFromServer env g).globals.STRIPE_PK = .json (.str k) ∧
    (initStripeFromServer env g).globals.STRIPE = h ∧
    ctor (initStripeFromServer env g).globals.STRIPE_PK
      = .ok (initStripeFromServer env g).globals.STRIPE ∧
    (initStripeFromServer env g).completion = resolveWith h ∧
    (h.isThenable = false → (initStripeFromServer env g).completion = .resolved h) ∧
    (initStripeFromServer env g).logs = [] := by
  have ha : Accepted body (.json (.str k)) :=
    ⟨_, hs, rfl, hp, by simpa [JSVal.truthy, Json.truthy] using hk⟩
  rw [run_happy g ⟨res, hf, hok, hj⟩ ha hS hc]
  exact ⟨rfl, rfl, hc, rfl, resolveWith_of_not_thenable, rfl⟩

/-- Witness of C1, amended, on the response
`{success: true, publishable_key: "pk_test_123"}` and a handle that is not a
thenable. -/
theorem C1_happy_path_witness :
    (initStripeFromServer (pageWith (okResponse (keyBody "pk_test_123")) (some sdkOk))
        unsetGlobals).globals.STRIPE_PK = .json (.str "pk_test_123") ∧
    (initStripeFromServer (pageWith (okResponse (keyBody "pk_test_123")) (some sdkOk))
        unsetGlobals).globals.STRIPE = .host 1 ∧
    (initStripeFromServer (pageWith (okResponse (keyBody "pk_test_123")) (some sdkOk))
        unsetGlobals).completion = .resolved (.host 1) ∧
    (initStripeFromServer (pageWith (okResponse (keyBody "pk_test_123")) (some sdkOk))
        unsetGlobals).logs = [] :=
  have h := C1_happy_path (pageWith (okResponse (keyBody "pk_test_123")) (some sdkOk))
    unsetGlobals (okResponse (keyBody "pk_test_123")) (keyBody "pk_test_123") "pk_test_123"
    (.host 1) sdkOk (by decide) rfl rfl rfl rfl rfl rfl rfl
  ⟨h.1, h.2.1, h.2.2.2.2.1 rfl, h.2.2.2.2.2⟩

/-- C2: state invariant. If a run writes `v` to `window.STRIPE`, then the
response was OK and its body carried a truthy `success` and a truthy
`publishable_key` (not `""` when it is a string), `window.STRIPE_PK` was
written earlier in the run with exactly that key and with nothing else,
`window.Stripe` was available, and `v` is `Stripe` applied to the stored
`window.STRIPE_PK`. -/
theorem C2_handle_invariant (env : Env) (g : Globals) (v : JSVal)
    (hw : Event.writeSTRIPE v ∈ (initStripeFromServer env g).trace) :
    ∃ body key ctor,
      OkBody env body ∧ Accepted body key ∧ (∀ s, key = .json (.str s) → s ≠ "") ∧
      env.Stripe = some ctor ∧
      (∃ pre mid post, (initStripeFromServer env g).trace
        = pre ++ Event.writePK key :: mid ++ Event.writeSTRIPE v :: post) ∧
      (∀ k, Event.writePK k ∈ (initStripeFromServer env g).trace → k = key) ∧
      (initStripeFromServer env g).globals.STRIPE_PK = key ∧
      ctor (initStripeFromServer env g).globals.STRIPE_PK = .ok v ∧
      (initStripeFromServer env g).globals.STRIPE = v := by
  cases path_total env with
  | fetchRejects e hf => rw [run_fetch_rejects g hf] at hw; simp at hw
  | notOk res hf hok => rw [run_not_ok g hf hok] at hw; simp at hw
  | parseThrows res e hf hok hj => rw [run_parse_throws g hf hok hj] at hw; simp at hw
  | readThrows body e hb hs => rw [run_read_throws g hb hs] at hw; simp at hw
  | refused body hb hr => rw [run_refused g hb hr] at hw; simp at hw
  | sdkAbsent body key hb ha hS => rw [run_sdk_absent g hb ha hS] at hw; simp at hw
  | ctorThrows body key e ctor hb ha hS hc =>
    rw [run_ctor_throws g hb ha hS hc] at hw; simp at hw
  | happy body key h ctor hb ha hS hc =>
    rw [run_happy g hb ha hS hc] at hw ⊢
    simp at hw
    subst hw
    refine ⟨body, key, ctor, hb, ha, ?_, hS, ?_, ?_, rfl, hc, rfl⟩
    · intro s hs
      obtain ⟨_, _, _, _, ht⟩ := ha
      subst hs
      simpa [JSVal.truthy, Json.truthy] using ht
    · exact ⟨[.request "GET" endpoint, .parseBody], [.callStripe key], [], rfl⟩
    · intro k hk
      simpa using hk

/-- Witness of C2 on the response `{success: true, publishable_key: "pk_test_123"}`. -/
theorem C2_handle_invariant_witness :
    ∃ body key ctor,
      OkBody (pageWith (okResponse (keyBody "pk_test_123")) (some sdkOk)) body ∧
      Accepted body key ∧
      (pageWith (okResponse (keyBody "pk_test_123")) (some sdkOk)).Stripe = some ctor ∧
      ctor key = .ok (.host 1) := by
  obtain ⟨body, key, ctor, hb, ha, _, hS, _, _, hpk, hc, _⟩ :=
    C2_handle_invariant (pageWith (okResponse (keyBody "pk_test_123")) (some sdkOk))
      unsetGlobals (.host 1)
      (by
        rw [@run_happy (pageWith (okResponse (keyBody "pk_test_123")) (some sdkOk))
          unsetGlobals (keyBody "pk_test_123") (.json (.str "pk_test_123")) (.host 1) sdkOk
          ⟨okResponse (keyBody "pk_test_123"), rfl, rfl, rfl⟩
          ⟨.json (.bool true), rfl, rfl, rfl, rfl⟩ rfl rfl]
        simp)
  rw [hpk] at hc
  exact ⟨body, key, ctor, hb, ha, hS, hc⟩

/-- C3, as stated, fails in the environment-failure class: on the response
`{success: true, publishable_key: "pk_live_1"}` with `Stripe` absent and both
globals unset, the run writes `window.STRIPE_PK`, which no longer has its
initial value. -/
theorem C3_counterexample :
    EnvironmentFailure (pageWith (okResponse (keyBody "pk_live_1")) none)
      (.json (.str "pk_live_1")) ∧
    Event.writePK (.json (.str "pk_live_1")) ∈
      (initStripeFromServer (pageWith (okResponse (keyBody "pk_live_1")) none)
        unsetGlobals).trace ∧
    (initStripeFromServer (pageWith (okResponse (keyBody "pk_live_1")) none)
        unsetGlobals).globals.STRIPE_PK ≠ unsetGlobals.STRIPE_PK := by
  have ha : Accepted (keyBody "pk_live_1") (.json (.str "pk_live_1")) :=
    ⟨.json (.bool true), rfl, rfl, rfl, rfl⟩
  have hb : OkBody (pageWith (okResponse (keyBody "pk_live_1")) none) (keyBody "pk_live_1") :=
    ⟨okResponse (keyBody "pk_live_1"), rfl, rfl, rfl⟩
  refine ⟨⟨⟨_, hb, ha⟩, rfl⟩, ?_, ?_⟩
  · rw [run_sdk_absent unsetGlobals hb ha rfl]
    simp
  · rw [run_sdk_absent unsetGlobals hb ha rfl]
    simp [unsetGlobals]

/-- C3, amended: failure frame. In a transport, deserialization or application
failure, and on the parsed body `null`, the run writes neither global, both
keep their initial values, and the result is `null`. In an environment failure
(body accepted with `key`, `Stripe` absent) `window.STRIPE` is not written and
keeps its initial value, `window.STRIPE_PK` holds `key`, and the promise is
resolved with that untouched `window.STRIPE`: the result is that value when it
is not a thenable. -/
theorem C3_failure_frame (env : Env) (g : Globals) :
    (TransportFailure env ∨ DeserializationFailure env ∨ ApplicationFailure env ∨
        OkBody env .null →
      (∀ v, Event.writePK v ∉ (initStripeFromServer env g).trace) ∧
      (∀ v, Event.writeSTRIPE v ∉ (initStripeFromServer env g).trace) ∧
      (initStripeFromServer env g).globals = g ∧
      (initStripeFromServer env g).completion = .resolved jsNull) ∧
    (∀ key, EnvironmentFailure env key →
      (∀ v, Event.writeSTRIPE v ∉ (initStripeFromServer env g).trace) ∧
      (initStripeFromServer env g).globals.STRIPE = g.STRIPE ∧
      (initStripeFromServer env g).globals.STRIPE_PK = key ∧
      (initStripeFromServer env g).completion = resolveWith g.STRIPE ∧
      (g.STRIPE.isThenable = false →
        (initStripeFromServer env g).completion = .resolved g.STRIPE)) := by
  constructor
  · rintro ((⟨e, hf⟩ | ⟨res, hf, hok⟩) | ⟨res, e, hf, hok, hj⟩ | ⟨body, hb, hr⟩ | hb)
    · rw [run_fetch_rejects g hf]; simp
    · rw [run_not_ok g hf hok]; simp
    · rw [run_parse_throws g hf hok hj]; simp
    · rw [run_refused g hb hr]; simp
    · have hs : getProp .null "success" = .error (.typeError "success") := rfl
      rw [run_read_throws g hb hs]; simp
  · rintro key ⟨⟨body, hb, ha⟩, hS⟩
    rw [run_sdk_absent g hb ha hS]
    exact ⟨by simp, rfl, rfl, rfl, resolveWith_of_not_thenable⟩

/-- Witness of C3, amended: a rejected `fetch`, and an accepted key with `Stripe`
absent on a page that already holds a handle. -/
theorem C3_failure_frame_witness :
    (initStripeFromServer { fetch := fun _ => .error (.host 3), Stripe := some sdkOk }
        presetGlobals).globals = presetGlobals ∧
    (initStripeFromServer (pageWith (okResponse (keyBody "pk_live_1")) none)
        presetGlobals).globals.STRIPE_PK = .json (.str "pk_live_1") ∧
    (initStripeFromServer (pageWith (okResponse (keyBody "pk_live_1")) none)
        presetGlobals).completion = .resolved presetGlobals.STRIPE :=
  ⟨((C3_failure_frame { fetch := fun _ => .error (.host 3), Stripe := some sdkOk }
      presetGlobals).1 (Or.inl (Or.inl ⟨.host 3, rfl⟩))).2.2.1,
   ((C3_failure_frame (pageWith (okResponse (keyBody "pk_live_1")) none) presetGlobals).2
      (.json (.str "pk_live_1"))
      ⟨⟨keyBody "pk_live_1", ⟨okResponse (keyBody "pk_live_1"), rfl, rfl, rfl⟩,
        ⟨.json (.bool true), rfl, rfl, rfl, rfl⟩⟩, rfl⟩).2.2.1,
   ((C3_failure_frame (pageWith (okResponse (keyBody "pk_live_1")) none) presetGlobals).2
      (.json (.str "pk_live_1"))
      ⟨⟨keyBody "pk_live_1", ⟨okResponse (keyBody "pk_live_1"), rfl, rfl, rfl⟩,
        ⟨.json (.bool true), rfl, rfl, rfl, rfl⟩⟩, rfl⟩).2.2.2.2 rfl⟩

/-- C4, as stated, fails when another script already placed a handle in
`window.STRIPE`: on the response `{success: true, publishable_key: "pk_live_1"}`
with `Stripe` absent, the result is that handle, not an empty result. -/
theorem C4_counterexample :
    OkBody (pageWith (okResponse (keyBody "pk_live_1")) none) (keyBody "pk_live_1") ∧
    Accepted (keyBody "pk_live_1") (.json (.str "pk_live_1")) ∧
    (pageWith (okResponse (keyBody "pk_live_1")) none).Stripe = none ∧
    (initStripeFromServer (pageWith (okResponse (keyBody "pk_live_1")) none)
        presetGlobals).completion = .resolved (.host 7) ∧
    JSVal.isEmpty (.host 7) = false :=
  ⟨⟨okResponse (keyBody "pk_live_1"), rfl, rfl, rfl⟩,
    ⟨.json (.bool true), rfl, rfl, rfl, rfl⟩, rfl, rfl, rfl⟩

/-- C4, amended: SDK-absent branch. For every initial global state, when the
response is OK, the body is accepted and `window.Stripe` is absent, the run logs
exactly the warning `Stripe.js not loaded`, does not write `window.STRIPE`, and
its promise is resolved with the untouched initial value of `window.STRIPE`:
the result is that value when it is not a thenable, so an empty result
(`undefined`) when `window.STRIPE` was unset. -/
theorem C4_sdk_absent (env : Env) (g : Globals) (body : Json) (key : JSVal)
    (hb : OkBody env body) (ha : Accepted body key) (hS : env.Stripe = none) :
    (initStripeFromServer env g).logs = [⟨.warn, "Stripe.js not loaded", []⟩] ∧
    (∀ v, Event.writeSTRIPE v ∉ (initStripeFromServer env g).trace) ∧
    (initStripeFromServer env g).globals.STRIPE = g.STRIPE ∧
    (initStripeFromServer env g).completion = resolveWith g.STRIPE ∧
    (g.STRIPE.isThenable = false →
      (initStripeFromServer env g).completion = .resolved g.STRIPE) ∧
    (g.STRIPE = .undefined →
      (initStripeFromServer env g).completion = .resolved .undefined) := by
  rw [run_sdk_absent g hb ha hS]
  refine ⟨rfl, by simp, rfl, rfl, resolveWith_of_not_thenable, fun h => ?_⟩
  show resolveWith g.STRIPE = _
  rw [h]
  rfl

/-- Witness of C4, amended, with both globals unset: the result is `undefined`. -/
theorem C4_sdk_absent_witness :
    (initStripeFromServer (pageWith (okResponse (keyBody "pk_live_1")) none)
        unsetGlobals).logs = [⟨.warn, "Stripe.js not loaded", []⟩] ∧
    (initStripeFromServer (pageWith (okResponse (keyBody "pk_live_1")) none)
        unsetGlobals).completion = .resolved .undefined :=
  have h := C4_sdk_absent (pageWith (okResponse (keyBody "pk_live_1")) none) unsetGlobals
    (keyBody "pk_live_1") (.json (.str "pk_live_1"))
    ⟨okResponse (keyBody "pk_live_1"), rfl, rfl, rfl⟩
    ⟨.json (.bool true), rfl, rfl, rfl, rfl⟩ rfl
  ⟨h.1, h.2.2.2.2.2 rfl⟩

/-- C5, as stated, fails when `Stripe` returns a rejected promise: on the
response `{success: true, publishable_key: "pk_test_123"}` no step throws, the
run returns `window.STRIPE` without awaiting it, and its promise is rejected
with `host 6`, with nothing logged. -/
theorem C5_counterexample :
    (initStripeFromServer (pageWith (okResponse (keyBody "pk_test_123"))
        (some sdkRejectedPromise)) unsetGlobals).completion = .rejected (.host 6) ∧
    (initStripeFromServer (pageWith (okResponse (keyBody "pk_test_123"))
        (some sdkRejectedPromise)) unsetGlobals).logs = [] ∧
    ¬ ∃ v, (initStripeFromServer (pageWith (okResponse (keyBody "pk_test_123"))
        (some sdkRejectedPromise)) unsetGlobals).completion = .resolved v := by
  have hc : (initStripeFromServer (pageWith (okResponse (keyBody "pk_test_123"))
      (some sdkRejectedPromise)) unsetGlobals).completion = .rejected (.host 6) := rfl
  refine ⟨hc, rfl, ?_⟩
  rintro ⟨v, hv⟩
  rw [hc] at hv
  cases hv

/-- C5, amended: no thrown exception escapes. Whenever a step throws (`fetch`
rejects, the body parser rejects, the property read on the parsed body throws,
or `Stripe` throws), the promise resolves with `null` and exactly one line is
logged, the error line `initStripeFromServer error` carrying the thrown value.
The promise of every run is resolved with `null` or with the final value of
`window.STRIPE`; so it resolves whenever that value is not a thenable, and it
can reject only by adopting a thenable held in `window.STRIPE`. -/
theorem C5_no_exception_escapes (env : Env) (g : Globals) :
    ((initStripeFromServer env g).completion = .resolved jsNull ∨
      (initStripeFromServer env g).completion
        = resolveWith (initStripeFromServer env g).globals.STRIPE) ∧
    ((initStripeFromServer env g).globals.STRIPE.isThenable = false →
      ∃ v, (initStripeFromServer env g).completion = .resolved v) ∧
    (∀ e, (initStripeFromServer env g).completion = .rejected e →
      (initStripeFromServer env g).globals.STRIPE.isThenable = true ∧
      resolveWith (initStripeFromServer env g).globals.STRIPE = .rejected e) ∧
    (∀ e, Throws env e →
      (initStripeFromServer env g).completion = .resolved jsNull ∧
      (initStripeFromServer env g).logs = [⟨.error, "initStripeFromServer error", [e]⟩]) := by
  have hmain : (initStripeFromServer env g).completion = .resolved jsNull ∨
      (initStripeFromServer env g).completion
        = resolveWith (initStripeFromServer env g).globals.STRIPE := by
    cases path_total env with
    | fetchRejects e hf => rw [run_fetch_rejects g hf]; exact Or.inl rfl
    | notOk res hf hok => rw [run_not_ok g hf hok]; exact Or.inl rfl
    | parseThrows res e hf hok hj => rw [run_parse_throws g hf hok hj]; exact Or.inl rfl
    | readThrows body e hb hs => rw [run_read_throws g hb hs]; exact Or.inl rfl
    | refused body hb hr => rw [run_refused g hb hr]; exact Or.inl rfl
    | sdkAbsent body key hb ha hS => rw [run_sdk_absent g hb ha hS]; exact Or.inr rfl
    | ctorThrows body key e ctor hb ha hS hc =>
      rw [run_ctor_throws g hb ha hS hc]; exact Or.inl rfl
    | happy body key h ctor hb ha hS hc => rw [run_happy g hb ha hS hc]; exact Or.inr rfl
  refine ⟨hmain, ?_, ?_, ?_⟩
  · intro hnt
    rcases hmain with h | h
    · exact ⟨_, h⟩
    · exact ⟨_, h.trans (resolveWith_of_not_thenable hnt)⟩
  · intro e he
    rcases hmain with h | h
    · rw [h] at he
      cases he
    · rw [h] at he
      refine ⟨?_, he⟩
      cases hth : (initStripeFromServer env g).globals.STRIPE.isThenable with
      | true => rfl
      | false =>
        rw [resolveWith_of_not_thenable hth] at he
        cases he
  · intro e ht
    rcases ht with hf | ⟨res, hf, hok, hj⟩ | ⟨body, hb, hs⟩ | ⟨body, key, ctor, hb, ha, hS, hc⟩
    · rw [run_fetch_rejects g hf]; exact ⟨rfl, rfl⟩
    · rw [run_parse_throws g hf hok hj]; exact ⟨rfl, rfl⟩
    · rw [run_read_throws g hb hs]; exact ⟨rfl, rfl⟩
    · rw [run_ctor_throws g hb ha hS hc]; exact ⟨rfl, rfl⟩

/-- Witness of C5, amended, on an accepted body with an SDK constructor that
throws. -/
theorem C5_no_exception_escapes_witness :
    (initStripeFromServer (pageWith (okResponse (keyBody "pk_test_123")) (some sdkThrows))
        unsetGlobals).completion = .resolved jsNull ∧
    (initStripeFromServer (pageWith (okResponse (keyBody "pk_test_123")) (some sdkThrows))
        unsetGlobals).logs = [⟨.error, "initStripeFromServer error", [.host 9]⟩] :=
  (C5_no_exception_escapes (pageWith (okResponse (keyBody "pk_test_123")) (some sdkThrows))
    unsetGlobals).2.2.2 (.host 9)
    (Or.inr (Or.inr (Or.inr ⟨keyBody "pk_test_123", .json (.str "pk_test_123"), sdkThrows,
      ⟨okResponse (keyBody "pk_test_123"), rfl, rfl, rfl⟩,
      ⟨.json (.bool true), rfl, rfl, rfl, rfl⟩, rfl, rfl⟩)))

/-- C6, as stated, fails on the parsed body `null`: the body is not accepted, yet
the run logs no warning `No publishable key in response:`; the property read
throws and the one line logged is the error line. -/
theorem C6_counterexample :
    OkBody (pageWith (okResponse .null) (some sdkOk)) .null ∧
    (¬ ∃ key, Accepted .null key) ∧
    (initStripeFromServer (pageWith (okResponse .null) (some sdkOk)) unsetGlobals).logs
      = [⟨.error, "initStripeFromServer error", [.typeError "success"]⟩] ∧
    (initStripeFromServer (pageWith (okResponse .null) (some sdkOk)) unsetGlobals).logs
      ≠ [⟨.warn, "No publishable key in response:", [.json .null]⟩] := by
  have hb : OkBody (pageWith (okResponse .null) (some sdkOk)) .null :=
    ⟨okResponse .null, rfl, rfl, rfl⟩
  have hs : getProp .null "success" = .error (.typeError "success") := rfl
  refine ⟨hb, ?_, ?_, ?_⟩
  · rintro ⟨key, ha⟩
    exact accepted_no_read_error ha hs
  · rw [run_read_throws unsetGlobals hb hs]
    rfl
  · rw [run_read_throws unsetGlobals hb hs]
    simp [Outcome.logs, logsOf]

/-- C6, amended: key acceptance rule. For every OK response and every parsed
body other than `null`: `window.STRIPE_PK` is written if and only if the body
has a truthy `success` and a truthy `publishable_key` (for a boolean `success`
and a string key: `success` is true and the key is not `""`), and the value
stored is that key; otherwise neither global is written, exactly one line is
logged, the warning `No publishable key in response:` carrying the body, and
the result is `null`. -/
theorem C6_key_acceptance (env : Env) (g : Globals) (body : Json)
    (hb : OkBody env body) (hnn : body ≠ .null) :
    ((∃ v, Event.writePK v ∈ (initStripeFromServer env g).trace) ↔
      ∃ key, Accepted body key) ∧
    (∀ b s, getProp body "success" = .ok (.json (.bool b)) →
      getProp body "publishable_key" = .ok (.json (.str s)) →
      ((∃ key, Accepted body key) ↔ b = true ∧ s ≠ "")) ∧
    (∀ key, Accepted body key →
      (initStripeFromServer env g).globals.STRIPE_PK = key ∧
      (∀ v, Event.writePK v ∈ (initStripeFromServer env g).trace → v = key)) ∧
    ((¬ ∃ key, Accepted body key) →
      (∀ v, Event.writePK v ∉ (initStripeFromServer env g).trace) ∧
      (∀ v, Event.writeSTRIPE v ∉ (initStripeFromServer env g).trace) ∧
      (initStripeFromServer env g).globals = g ∧
      (initStripeFromServer env g).logs
        = [⟨.warn, "No publishable key in response:", [.json body]⟩] ∧
      (initStripeFromServer env g).completion = .resolved jsNull) := by
  have hschema : ∀ b s, getProp body "success" = .ok (.json (.bool b)) →
      getProp body "publishable_key" = .ok (.json (.str s)) →
      ((∃ key, Accepted body key) ↔ b = true ∧ s ≠ "") := by
    intro b s hs hk
    constructor
    · rintro ⟨key, sv, hs2, hsv, hk2, hkt⟩
      rw [hs] at hs2
      cases Except.ok.inj hs2
      rw [hk] at hk2
      cases Except.ok.inj hk2
      exact ⟨by simpa [JSVal.truthy, Json.truthy] using hsv,
        by simpa [JSVal.truthy, Json.truthy] using hkt⟩
    · rintro ⟨hbt, hne⟩
      exact ⟨_, _, hs, by simpa [JSVal.truthy, Json.truthy] using hbt, hk,
        by simpa [JSVal.truthy, Json.truthy] using hne⟩
  cases path_total env with
  | fetchRejects e hf => exact (okBody_no_fetch_error hb hf).elim
  | notOk res hf hok =>
    have := (okBody_fetch hb hf).1
    simp [hok] at this
  | parseThrows res e hf hok hj =>
    have := (okBody_fetch hb hf).2
    rw [hj] at this
    cases this
  | readThrows body2 e hb2 hs =>
    cases okBody_unique hb hb2
    exact absurd ((getProp_error_iff _ _ _).1 hs).1 hnn
  | refused body2 hb2 hr =>
    cases okBody_unique hb hb2
    have hna : ¬ ∃ key, Accepted body key := fun ⟨key, ha⟩ => refused_not_accepted hr ha
    rw [run_refused g hb hr]
    refine ⟨⟨fun ⟨v, hv⟩ => by simp at hv, fun h => absurd h hna⟩, hschema,
      fun key ha => absurd ⟨key, ha⟩ hna, fun _ => ⟨by simp, by simp, rfl, rfl, rfl⟩⟩
  | sdkAbsent body2 key hb2 ha hS =>
    cases okBody_unique hb hb2
    rw [run_sdk_absent g hb ha hS]
    refine ⟨⟨fun _ => ⟨key, ha⟩, fun _ => ⟨key, by simp⟩⟩, hschema, fun k2 ha2 => ?_,
      fun hna => absurd ⟨key, ha⟩ hna⟩
    cases accepted_unique ha ha2
    exact ⟨rfl, by simp⟩
  | ctorThrows body2 key e ctor hb2 ha hS hc =>
    cases okBody_unique hb hb2
    rw [run_ctor_throws g hb ha hS hc]
    refine ⟨⟨fun _ => ⟨key, ha⟩, fun _ => ⟨key, by simp⟩⟩, hschema, fun k2 ha2 => ?_,
      fun hna => absurd ⟨key, ha⟩ hna⟩
    cases accepted_unique ha ha2
    exact ⟨rfl, by simp⟩
  | happy body2 key h ctor hb2 ha hS hc =>
    cases okBody_unique hb hb2
    rw [run_happy g hb ha hS hc]
    refine ⟨⟨fun _ => ⟨key, ha⟩, fun _ => ⟨key, by simp⟩⟩, hschema, fun k2 ha2 => ?_,
      fun hna => absurd ⟨key, ha⟩ hna⟩
    cases accepted_unique ha ha2
    exact ⟨rfl, by simp⟩

/-- Witness of C6, amended, on the body `{success: false}`. -/
theorem C6_key_acceptance_witness :
    (initStripeFromServer
        (pageWith (okResponse (.obj [("success", .bool false)])) (some sdkOk))
        unsetGlobals).logs
      = [⟨.warn, "No publishable key in response:",
          [.json (.obj [("success", .bool false)])]⟩] ∧
    (initStripeFromServer
        (pageWith (okResponse (.obj [("success", .bool false)])) (some sdkOk))
        unsetGlobals).completion = .resolved jsNull :=
  have h := (C6_key_acceptance
    (pageWith (okResponse (.obj [("success", .bool false)])) (some sdkOk)) unsetGlobals
    (.obj [("success", .bool false)])
    ⟨okResponse (.obj [("success", .bool false)]), rfl, rfl, rfl⟩ (fun h => nomatch h)).2.2.2
    (fun ⟨_, ha⟩ =>
      @refused_not_accepted (.obj [("success", .bool false)]) _
        ⟨.json (.bool false), rfl, Or.inl rfl⟩ ha)
  ⟨h.2.2.2.1, h.2.2.2.2⟩

/-- C7: non-OK status. When the response is not OK, whatever its body, the run
never invokes the body parser, writes neither global, logs exactly one line,
a warning, and returns `null`. -/
theorem C7_not_ok (env : Env) (g : Globals) (res : Response)
    (hf : env.fetch endpoint = .ok res) (hok : res.ok = false) :
    Event.parseBody ∉ (initStripeFromServer env g).trace ∧
    (∀ v, Event.writePK v ∉ (initStripeFromServer env g).trace) ∧
    (∀ v, Event.writeSTRIPE v ∉ (initStripeFromServer env g).trace) ∧
    (initStripeFromServer env g).globals = g ∧
    (initStripeFromServer env g).logs
      = [⟨.warn, "Stripe publishable key not found on server", []⟩] ∧
    (initStripeFromServer env g).completion = .resolved jsNull := by
  rw [run_not_ok g hf hok]
  simp [Outcome.logs, logsOf]

/-- Witness of C7 on a non-OK response whose body would have been accepted. -/
theorem C7_not_ok_witness :
    Event.parseBody ∉ (initStripeFromServer
      (pageWith { ok := false, json := .ok (keyBody "pk_live_1") } (some sdkOk))
      unsetGlobals).trace ∧
    (initStripeFromServer
      (pageWith { ok := false, json := .ok (keyBody "pk_live_1") } (some sdkOk))
      unsetGlobals).completion = .resolved jsNull :=
  have h := C7_not_ok (pageWith { ok := false, json := .ok (keyBody "pk_live_1") } (some sdkOk))
    unsetGlobals { ok := false, json := .ok (keyBody "pk_live_1") } rfl rfl
  ⟨h.1, h.2.2.2.2.2⟩

/-- C8: single request, no retry. One invocation issues, as its first effect, a
`GET` to the fixed path `/api/stripe-pk`, and no request after it, so exactly
one; the `DOMContentLoaded` listener has the effects of exactly one invocation;
and over any number of deliveries of the event the requests are as many as the
deliveries, so at most one for the single delivery of a page load. -/
theorem C8_single_request (env : Env) (g : Globals) (envs : List Env) :
    (∃ rest, (initStripeFromServer env g).trace = .request "GET" "/api/stripe-pk" :: rest ∧
      requestCount rest = 0) ∧
    requestCount (initStripeFromServer env g).trace = 1 ∧
    (domContentLoadedListener env g).trace = (initStripeFromServer env g).trace ∧
    (domContentLoadedListener env g).globals = (initStripeFromServer env g).globals ∧
    requestCount (deliver envs g).2 = envs.length ∧
    requestCount (deliver [] g).2 = 0 ∧
    requestCount (deliver [env] g).2 = 1 := by
  have hone : ∀ (env : Env) (g : Globals),
      ∃ rest, (initStripeFromServer env g).trace = .request "GET" "/api/stripe-pk" :: rest ∧
        requestCount rest = 0 := by
    intro env g
    cases path_total env with
    | fetchRejects e hf => rw [run_fetch_rejects g hf]; exact ⟨_, rfl, rfl⟩
    | notOk res hf hok => rw [run_not_ok g hf hok]; exact ⟨_, rfl, rfl⟩
    | parseThrows res e hf hok hj => rw [run_parse_throws g hf hok hj]; exact ⟨_, rfl, rfl⟩
    | readThrows body e hb hs => rw [run_read_throws g hb hs]; exact ⟨_, rfl, rfl⟩
    | refused body hb hr => rw [run_refused g hb hr]; exact ⟨_, rfl, rfl⟩
    | sdkAbsent body key hb ha hS => rw [run_sdk_absent g hb ha hS]; exact ⟨_, rfl, rfl⟩
    | ctorThrows body key e ctor hb ha hS hc =>
      rw [run_ctor_throws g hb ha hS hc]; exact ⟨_, rfl, rfl⟩
    | happy body key h ctor hb ha hS hc =>
      rw [run_happy g hb ha hS hc]; exact ⟨_, rfl, rfl⟩
  have hcount : ∀ (env : Env) (g : Globals),
      requestCount (initStripeFromServer env g).trace = 1 := by
    intro env g
    obtain ⟨rest, ht, hr⟩ := hone env g
    rw [ht]
    have : requestCount (Event.request "GET" "/api/stripe-pk" :: rest)
        = requestCount rest + 1 := by
      simp [requestCount, Event.isRequest]
    omega
  have hlt : ∀ (env : Env) (g : Globals),
      (domContentLoadedListener env g).trace = (initStripeFromServer env g).trace := by
    intro env g
    simp only [domContentLoadedListener]
    split <;> rfl
  have hlg : ∀ (env : Env) (g : Globals),
      (domContentLoadedListener env g).globals = (initStripeFromServer env g).globals := by
    intro env g
    simp only [domContentLoadedListener]
    split <;> rfl
  have hdel : ∀ (envs : List Env) (g : Globals),
      requestCount (deliver envs g).2 = envs.length := by
    intro envs
    induction envs with
    | nil => intro g; rfl
    | cons e rest ih =>
      intro g
      simp only [deliver, requestCount_append, ih, hlt, hcount, List.length_cons]
      omega
  exact ⟨hone env g, hcount env g, hlt env g, hlg env g, hdel envs g, hdel [] g, hdel [env] g⟩

/-- C9: diagnostics. A run logs a line exactly when it is not the happy path; a
run that is not the happy path logs exactly one line; that line is at error
level exactly when a step threw, and at warning level exactly for the expected
failures (status not OK, body refused, `Stripe` absent). -/
theorem C9_diagnostics (env : Env) (g : Globals) :
    ((initStripeFromServer env g).logs ≠ [] ↔ ¬ Happy (initStripeFromServer env g)) ∧
    (¬ Happy (initStripeFromServer env g) →
      ∃ line, (initStripeFromServer env g).logs = [line] ∧
        (line.level = .error ↔ ∃ e, Throws env e) ∧
        (line.level = .warn ↔ ExpectedFailure env)) := by
  have hthrow : ∀ e, Throws env e →
      ((Level.error = Level.error ↔ ∃ e, Throws env e) ∧
       (Level.error = Level.warn ↔ ExpectedFailure env)) := by
    intro e ht
    refine ⟨⟨fun _ => ⟨e, ht⟩, fun _ => rfl⟩, ⟨fun h => (nomatch h), fun hx => ?_⟩⟩
    exact absurd ht (expected_not_throws hx e)
  have hexp : ExpectedFailure env →
      ((Level.warn = Level.error ↔ ∃ e, Throws env e) ∧
       (Level.warn = Level.warn ↔ ExpectedFailure env)) := by
    intro hx
    refine ⟨⟨fun h => (nomatch h), fun ⟨e, ht⟩ => ?_⟩, ⟨fun _ => hx, fun _ => rfl⟩⟩
    exact absurd ht (expected_not_throws hx e)
  cases path_total env with
  | fetchRejects e hf =>
    rw [run_fetch_rejects g hf]
    have hh : ¬ Happy ⟨g, [.request "GET" endpoint,
        .log ⟨.error, "initStripeFromServer error", [e]⟩], .resolved jsNull⟩ := by
      simp [Happy]
    exact ⟨⟨fun _ => hh, fun _ => by simp [Outcome.logs, logsOf]⟩,
      fun _ => ⟨_, rfl, hthrow e (Or.inl hf)⟩⟩
  | notOk res hf hok =>
    rw [run_not_ok g hf hok]
    have hh : ¬ Happy ⟨g, [.request "GET" endpoint,
        .log ⟨.warn, "Stripe publishable key not found on server", []⟩],
        .resolved jsNull⟩ := by
      simp [Happy]
    exact ⟨⟨fun _ => hh, fun _ => by simp [Outcome.logs, logsOf]⟩,
      fun _ => ⟨_, rfl, hexp (Or.inl ⟨res, hf, hok⟩)⟩⟩
  | parseThrows res e hf hok hj =>
    rw [run_parse_throws g hf hok hj]
    have hh : ¬ Happy ⟨g, [.request "GET" endpoint, .parseBody,
        .log ⟨.error, "initStripeFromServer error", [e]⟩], .resolved jsNull⟩ := by
      simp [Happy]
    exact ⟨⟨fun _ => hh, fun _ => by simp [Outcome.logs, logsOf]⟩,
      fun _ => ⟨_, rfl, hthrow e (Or.inr (Or.inl ⟨res, hf, hok, hj⟩))⟩⟩
  | readThrows body e hb hs =>
    rw [run_read_throws g hb hs]
    have hh : ¬ Happy ⟨g, [.request "GET" endpoint, .parseBody,
        .log ⟨.error, "initStripeFromServer error", [e]⟩], .resolved jsNull⟩ := by
      simp [Happy]
    exact ⟨⟨fun _ => hh, fun _ => by simp [Outcome.logs, logsOf]⟩,
      fun _ => ⟨_, rfl, hthrow e (Or.inr (Or.inr (Or.inl ⟨body, hb, hs⟩)))⟩⟩
  | refused body hb hr =>
    rw [run_refused g hb hr]
    have hh : ¬ Happy ⟨g, [.request "GET" endpoint, .parseBody,
        .log ⟨.warn, "No publishable key in response:", [.json body]⟩],
        .resolved jsNull⟩ := by
      simp [Happy]
    exact ⟨⟨fun _ => hh, fun _ => by simp [Outcome.logs, logsOf]⟩,
      fun _ => ⟨_, rfl, hexp (Or.inr (Or.inl ⟨body, hb, hr⟩))⟩⟩
  | sdkAbsent body key hb ha hS =>
    rw [run_sdk_absent g hb ha hS]
    have hh : ¬ Happy ⟨⟨key, g.STRIPE⟩, [.request "GET" endpoint, .parseBody, .writePK key,
        .log ⟨.warn, "Stripe.js not loaded", []⟩], resolveWith g.STRIPE⟩ := by
      simp [Happy]
    exact ⟨⟨fun _ => hh, fun _ => by simp [Outcome.logs, logsOf]⟩,
      fun _ => ⟨_, rfl, hexp (Or.inr (Or.inr ⟨key, ⟨body, hb, ha⟩, hS⟩))⟩⟩
  | ctorThrows body key e ctor hb ha hS hc =>
    rw [run_ctor_throws g hb ha hS hc]
    have hh : ¬ Happy ⟨⟨key, g.STRIPE⟩, [.request "GET" endpoint, .parseBody, .writePK key,
        .callStripe key, .log ⟨.error, "initStripeFromServer error", [e]⟩],
        .resolved jsNull⟩ := by
      simp [Happy]
    exact ⟨⟨fun _ => hh, fun _ => by simp [Outcome.logs, logsOf]⟩,
      fun _ => ⟨_, rfl, hthrow e (Or.inr (Or.inr (Or.inr ⟨body, key, ctor, hb, ha, hS, hc⟩)))⟩⟩
  | happy body key h ctor hb ha hS hc =>
    rw [run_happy g hb ha hS hc]
    have hh : Happy ⟨⟨key, h⟩, [.request "GET" endpoint, .parseBody, .writePK key,
        .callStripe key, .writeSTRIPE h], resolveWith h⟩ := by
      simp [Happy]
    exact ⟨⟨fun hl => absurd rfl hl, fun hn => absurd hh hn⟩, fun hn => absurd hh hn⟩

/-- Witness of C9 on a response that is not OK: one line, a warning. -/
theorem C9_diagnostics_witness :
    ∃ line, (initStripeFromServer (pageWith { ok := false, json := .ok .null } none)
        unsetGlobals).logs = [line] ∧
      (line.level = .warn ↔
        ExpectedFailure (pageWith { ok := false, json := .ok .null } none)) := by
  obtain ⟨line, hl, _, hw⟩ :=
    (C9_diagnostics (pageWith { ok := false, json := .ok .null } none) unsetGlobals).2
      (by
        rw [@run_not_ok (pageWith { ok := false, json := .ok .null } none) unsetGlobals
          { ok := false, json := .ok .null } rfl rfl]
        simp [Happy])
  exact ⟨line, hl, hw⟩

/-- C10, as stated, fails when `window.STRIPE` holds a thenable: on the response
`{success: true, publishable_key: "pk_live_1"}` with `Stripe` absent and
`window.STRIPE` preset to a promise fulfilled with `host 4`, no step throws,
`window.STRIPE` is untouched, and the result is `host 4`, not the promise that
`window.STRIPE` holds. -/
theorem C10_counterexample :
    OkBody (pageWith (okResponse (keyBody "pk_live_1")) none) (keyBody "pk_live_1") ∧
    Accepted (keyBody "pk_live_1") (.json (.str "pk_live_1")) ∧
    (pageWith (okResponse (keyBody "pk_live_1")) none).Stripe = none ∧
    (initStripeFromServer (pageWith (okResponse (keyBody "pk_live_1")) none)
        promiseGlobals).globals.STRIPE = .fulfilled 2 (.host 4) ∧
    (initStripeFromServer (pageWith (okResponse (keyBody "pk_live_1")) none)
        promiseGlobals).completion = .resolved (.host 4) ∧
    (initStripeFromServer (pageWith (okResponse (keyBody "pk_live_1")) none)
        promiseGlobals).completion
      ≠ .resolved (initStripeFromServer (pageWith (okResponse (keyBody "pk_live_1")) none)
          promiseGlobals).globals.STRIPE := by
  have hc : (initStripeFromServer (pageWith (okResponse (keyBody "pk_live_1")) none)
      promiseGlobals).completion = .resolved (.host 4) := rfl
  have hg : (initStripeFromServer (pageWith (okResponse (keyBody "pk_live_1")) none)
      promiseGlobals).globals.STRIPE = .fulfilled 2 (.host 4) := rfl
  refine ⟨⟨okResponse (keyBody "pk_live_1"), rfl, rfl, rfl⟩,
    ⟨.json (.bool true), rfl, rfl, rfl, rfl⟩, rfl, hg, hc, ?_⟩
  rw [hc, hg]
  simp

/-- C10, amended: result of the accepted-key branch. When the response is OK, the
body is accepted with `key` and the call of `Stripe`, if there is one, does not
throw, the promise is resolved with the final value of `window.STRIPE`: the
result is that value when it is not a thenable, and a thenable is adopted. When
`Stripe` is absent that value is the initial, untouched `window.STRIPE`, while
`window.STRIPE_PK` holds the new key. -/
theorem C10_accepted_result (env : Env) (g : Globals) (body : Json) (key : JSVal)
    (hb : OkBody env body) (ha : Accepted body key)
    (hno : ∀ ctor, env.Stripe = some ctor → ∃ h, ctor key = .ok h) :
    (initStripeFromServer env g).completion
      = resolveWith (initStripeFromServer env g).globals.STRIPE ∧
    ((initStripeFromServer env g).globals.STRIPE.isThenable = false →
      (initStripeFromServer env g).completion
        = .resolved (initStripeFromServer env g).globals.STRIPE) ∧
    (initStripeFromServer env g).globals.STRIPE_PK = key ∧
    (env.Stripe = none →
      (initStripeFromServer env g).completion = resolveWith g.STRIPE ∧
      (g.STRIPE.isThenable = false →
        (initStripeFromServer env g).completion = .resolved g.STRIPE) ∧
      (initStripeFromServer env g).globals.STRIPE = g.STRIPE ∧
      (∀ v, Event.writeSTRIPE v ∉ (initStripeFromServer env g).trace) ∧
      Event.writePK key ∈ (initStripeFromServer env g).trace) := by
  cases hS : env.Stripe with
  | none =>
    rw [run_sdk_absent g hb ha hS]
    exact ⟨rfl, resolveWith_of_not_thenable, rfl,
      fun _ => ⟨rfl, resolveWith_of_not_thenable, rfl, by simp, by simp⟩⟩
  | some ctor =>
    obtain ⟨h, hc⟩ := hno ctor hS
    rw [run_happy g hb ha hS hc]
    exact ⟨rfl, resolveWith_of_not_thenable, rfl, fun hn => nomatch hn⟩

/-- Witness of C10, amended, with `Stripe` absent and a handle that is not a
thenable already in `window.STRIPE`. -/
theorem C10_accepted_result_witness :
    (initStripeFromServer (pageWith (okResponse (keyBody "pk_live_1")) none)
        presetGlobals).completion = .resolved (.host 7) ∧
    (initStripeFromServer (pageWith (okResponse (keyBody "pk_live_1")) none)
        presetGlobals).globals.STRIPE_PK = .json (.str "pk_live_1") :=
  have h := C10_accepted_result (pageWith (okResponse (keyBody "pk_live_1")) none)
    presetGlobals (keyBody "pk_live_1")
    (.json (.str "pk_live_1")) ⟨okResponse (keyBody "pk_live_1"), rfl, rfl, rfl⟩
    ⟨.json (.bool true), rfl, rfl, rfl, rfl⟩ (fun _ hS => nomatch hS)
  ⟨(h.2.2.2 rfl).2.1 rfl, h.2.2.1⟩

end StripeInit
